import Mathlib

/-!
Shallow embedding of `src/notes/base.ts` of ObsidianAnkiBridge: the note
model (NoteBase), its per-note configuration, deck/tag resolution and
local/remote field mapping, together with theorems checking the
specification's claims against it.

Conventions of the embedding:
* TypeScript `T | null` / `T | undefined` becomes `Option T`.
* JavaScript string truthiness (`if (s)`) is modelled explicitly: a value is
  truthy iff it is present and not the empty string.
* A JavaScript expression that can throw on missing object keys is modelled
  as a function returning `Option`.
* External collaborators (the blueprint renderer, the Obsidian tag cache)
  are passed as explicit parameters, matching the spec's pure-function
  framing of the resolvers.
-/

/-- Remove the first occurrence of a character from a character list.
Models JavaScript `s.replace('#', '')`, which with a string pattern replaces
only the first occurrence. -/
def removeFirstOcc (c : Char) : List Char → List Char
  | [] => []
  | x :: xs => if x = c then xs else x :: removeFirstOcc c xs

/-- `tag.replace('#', '')` from `getTags` (src/notes/base.ts line 200). -/
def removeFirstHash (s : String) : String :=
  String.mk (removeFirstOcc '#' s.data)

/-- Replace every `'/'` by `"::"` in a character list. -/
def slashesToColonsAux : List Char → List Char
  | [] => []
  | c :: cs =>
      if c = '/' then ':' :: ':' :: slashesToColonsAux cs
      else c :: slashesToColonsAux cs

/-- Models both `tag.replace(/\//g, '::')` (src/notes/base.ts line 202) and
`path.split('/').join('::')` (lines 184-186): for the single-character
separator `'/'` both are the global replacement of `'/'` by `"::"`. -/
def slashesToColons (s : String) : String :=
  String.mk (slashesToColonsAux s.data)

/-- Keep the first occurrence of each element, dropping later duplicates.
Models `tags.filter((item, index) => tags.indexOf(item) === index)`
(src/notes/base.ts line 205). -/
def dedupFirst : List String → List String :=
  go []
where
  go (seen : List String) : List String → List String
    | [] => []
    | x :: xs => if x ∈ seen then go seen xs else x :: go (x :: seen) xs

/-- JavaScript truthiness of a `string | undefined` value: present and
non-empty. -/
def strTruthy : Option String → Bool
  | none => false
  | some s => s != ""

-- Config (src/notes/base.ts lines 20-26)

structure Config where
  deck : Option String := none
  tags : Option (List String) := none
  delete : Option Bool := none
  enabled : Option Bool := none
  cloze : Option Bool := none
  deriving Repr, DecidableEq

/-- ParseConfig (src/notes/base.ts lines 28-30): Config plus the remote
identity; `id = none` models `id: null`. -/
structure ParseConfig where
  id : Option Int := none
  deck : Option String := none
  tags : Option (List String) := none
  delete : Option Bool := none
  enabled : Option Bool := none
  cloze : Option Bool := none
  deriving Repr, DecidableEq

/-- The loosely-typed object produced by deserializing the embedded
configuration text, before schema validation. `none` in a field means the
key is absent or null. -/
structure RawConfig where
  id : Option Int := none
  deck : Option String := none
  tags : Option (List String) := none
  delete : Option Bool := none
  enabled : Option Bool := none
  cloze : Option Bool := none
  deriving Repr, DecidableEq

/-- The object `{ id: null }` used as fallback when `load` yields nothing
(src/notes/base.ts line 34); every other key is absent. -/
def defaultRawConfig : RawConfig :=
  { id := none }

/-- Modelled from the spec: the ParseConfigSchema validation step. The yup
wrapper (`ankibridge/utils/yup`, not under src/) supplies `emptyAsUndefined`
and `nullAsUndefined`; per the spec's schema rules, `id` is number or null
with absent defaulting to null, `deck` with empty string or null is treated
as unset, `tags` is optional, and the boolean flags with null are left
unset. -/
def validateParseConfig (raw : RawConfig) : ParseConfig :=
  { id := raw.id
    deck := match raw.deck with
      | some "" => none
      | d => d
    tags := raw.tags
    delete := raw.delete
    enabled := raw.enabled
    cloze := raw.cloze }

-- Location (src/notes/base.ts lines 51-71)

structure ParseLocationMarker where
  offset : Nat
  line : Nat
  column : Nat
  deriving Repr, DecidableEq

structure ParseLocation where
  start : ParseLocationMarker
  stop : ParseLocationMarker
  source : Option String := none
  deriving Repr, DecidableEq

-- Result (src/notes/base.ts lines 84-90)

structure ParseNoteResult where
  type : String
  config : Option String
  front : Option String
  back : Option String
  location : ParseLocation
  deriving Repr, DecidableEq

/-- `ParseConfig.fromResult` (src/notes/base.ts lines 32-39). The YAML
deserializer (`js-yaml`'s `load`, an external library) is passed as a
parameter `load`; `load s = Except.error e` models a thrown syntax error and
`load s = Except.ok none` models `load` returning `undefined` or `null`, as
it does on empty input. `result.config || ''` is `result.config.getD ""`
(both `null` and `''` give `''`), and `load(configStr) || { id: null }` is
the `getD defaultRawConfig`. -/
def ParseConfig.fromResult (load : String → Except String (Option RawConfig))
    (result : ParseNoteResult) : Except String ParseConfig :=
  let configStr := result.config.getD ""
  match load configStr with
  | Except.error e => Except.error e
  | Except.ok obj => Except.ok (validateParseConfig (obj.getD defaultRawConfig))

-- Note entities (modelled from ankibridge/entities/note, used by src/notes/base.ts)

/-- The two-slot local field model: `NoteField.Frontlike` and
`NoteField.Backlike` slots, each `string | null`. -/
structure NoteFields where
  frontlike : Option String := none
  backlike : Option String := none
  deriving Repr, DecidableEq

/-- Opaque reference to an embedded asset. -/
abbrev Media := String

/-- The owning file: `path` is the full vault path, `parent` the parent
folder path. -/
structure TFile where
  path : String
  parent : String
  deriving Repr, DecidableEq

structure SourceDescriptor where
  file : TFile
  deriving Repr, DecidableEq

/-- Remote record shape (`NotesInfoResponseEntity`): model name plus a
field-name-to-value mapping (the `{value: string}` wrapper of each field is
flattened to the value itself). -/
structure NotesInfoResponseEntity where
  modelName : String
  fields : List (String × String)
  deriving Repr, DecidableEq

/-- Global plugin settings consumed by the resolvers (spec section 6). -/
structure PluginSettings where
  inheritDeck : Option Bool := none
  defaultDeckMaps : List (String × String) := []
  fallbackDeck : String := ""
  inheritTags : Bool := false
  tagInAnki : String := ""
  deriving Repr, DecidableEq

/-- NoteBase (src/notes/base.ts lines 99-123). The blueprint is an external
strategy object; operations that call it take it as an explicit function
parameter. -/
structure NoteBase where
  id : Option Int
  fields : NoteFields
  source : SourceDescriptor
  sourceText : String
  config : Config
  medias : List Media := []
  isCloze : Bool := false
  deriving Repr, DecidableEq

/-- `renderAsText` (src/notes/base.ts lines 125-127): delegates to the
blueprint. -/
def NoteBase.renderAsText (note : NoteBase) (blueprint : NoteBase → String) : String :=
  blueprint note

/-- `fieldsToAnkiFields` (src/notes/base.ts lines 129-138). The returned
`AnkiFields` object is modelled as an association list from remote field
names to values; `fields[slot] || ''` is `getD ""`. -/
def NoteBase.fieldsToAnkiFields (note : NoteBase) (fields : NoteFields) :
    List (String × String) :=
  if note.isCloze then
    [("Text", fields.frontlike.getD ""), ("Back Extra", fields.backlike.getD "")]
  else
    [("Front", fields.frontlike.getD ""), ("Back", fields.backlike.getD "")]

/-- `normaliseNoteInfoFields` (src/notes/base.ts lines 140-150). Accessing
`noteInfo.fields[name].value` throws when the key is missing; the throw is
modelled as `none`. -/
def normaliseNoteInfoFields (noteInfo : NotesInfoResponseEntity) : Option NoteFields :=
  let isCloze := noteInfo.modelName == "Cloze"
  let frontlike := if isCloze then "Text" else "Front"
  let backlike := if isCloze then "Back Extra" else "Back"
  match noteInfo.fields.lookup frontlike, noteInfo.fields.lookup backlike with
  | some f, some b => some { frontlike := some f, backlike := some b }
  | _, _ => none

/-- `getEnabled` (src/notes/base.ts lines 215-217):
`config.enabled === undefined || config.enabled`. -/
def NoteBase.getEnabled (note : NoteBase) : Bool :=
  match note.config.enabled with
  | none => true
  | some b => b

/-- `shouldUpdateFile` (src/notes/base.ts lines 152-154). -/
def NoteBase.shouldUpdateFile (note : NoteBase) (blueprint : NoteBase → String) : Bool :=
  note.getEnabled && (note.renderAsText blueprint != note.sourceText)

/-- `getModelName` (src/notes/base.ts lines 156-162). -/
def NoteBase.getModelName (note : NoteBase) : String :=
  if note.isCloze then "Cloze" else "Basic"

/-- Modelled from the spec: `getDefaultDeckForFolder`
(`ankibridge/utils/file`, not under src/) — a folder-to-deck lookup against
the configured default-deck mappings, keyed by the note's parent folder
path. -/
def getDefaultDeckForFolder (folder : String) (deckMaps : List (String × String)) :
    Option String :=
  (deckMaps.find? (fun m => m.fst == folder)).map (fun m => m.snd)

/-- `getDeckName` (src/notes/base.ts lines 167-192). The two JavaScript
truthiness guards `if (this.config.deck)` and `if (resolvedDefaultDeck)` are
`strTruthy`. -/
def NoteBase.getDeckName (note : NoteBase) (settings : PluginSettings) : String :=
  if settings.inheritDeck = some false then
    if strTruthy note.config.deck then
      note.config.deck.getD ""
    else
      let resolvedDefaultDeck :=
        getDefaultDeckForFolder note.source.file.parent settings.defaultDeckMaps
      if strTruthy resolvedDefaultDeck then
        resolvedDefaultDeck.getD ""
      else
        settings.fallbackDeck
  else if settings.inheritDeck = some true then
    settings.fallbackDeck ++ "::" ++ slashesToColons note.source.file.path
  else
    settings.fallbackDeck

/-- `getTags` (src/notes/base.ts lines 194-213). The Obsidian tag cache is
external; `cacheTags = some ts` models
`cache && getAllTags(cache) !== null` holding with `getAllTags(cache) = ts`,
and `cacheTags = none` models a missing cache entry or a null tag list. -/
def NoteBase.getTags (note : NoteBase) (settings : PluginSettings)
    (cacheTags : Option (List String)) : List String :=
  if settings.inheritTags then
    match cacheTags with
    | some rawTags =>
        let tags1 := rawTags.map removeFirstHash
        let tags2 := tags1.map slashesToColons
        let tags3 := tags2 ++ note.config.tags.getD []
        let tags4 := dedupFirst tags3
        settings.tagInAnki :: tags4
    | none => settings.tagInAnki :: note.config.tags.getD []
  else
    settings.tagInAnki :: note.config.tags.getD []

/-- `hasID` (src/notes/base.ts lines 224-226). -/
def hasID (note : NoteBase) : Bool :=
  note.id != none

-- Theorems

/-- C1: `shouldUpdateFile` returns true iff the note is enabled (enabled
flag unset or true) and the rendered text differs from `sourceText`; a note
with `config.enabled = false` never reports true, and a note whose
`sourceText` equals the rendered output never does. -/
theorem claim_C1_shouldUpdateFile (blueprint : NoteBase → String) (note : NoteBase) :
    (note.shouldUpdateFile blueprint = true ↔
      (note.getEnabled = true ∧ note.renderAsText blueprint ≠ note.sourceText)) ∧
    (note.config.enabled = some false → note.shouldUpdateFile blueprint = false) ∧
    (note.renderAsText blueprint = note.sourceText →
      note.shouldUpdateFile blueprint = false) := by
  refine ⟨?_, ?_, ?_⟩
  · simp [NoteBase.shouldUpdateFile, bne_iff_ne]
  · intro h
    simp [NoteBase.shouldUpdateFile, NoteBase.getEnabled, h]
  · intro h
    simp [NoteBase.shouldUpdateFile, h]

/-- Witness for C1 at a concrete note. -/
theorem claim_C1_witness :
    ({ id := none
       fields := {}
       source := { file := { path := "a.md", parent := "" } }
       sourceText := "old"
       config := { enabled := some false } : NoteBase }.shouldUpdateFile
        (fun _ => "new")) = false :=
  (claim_C1_shouldUpdateFile (fun _ => "new") _).2.1 rfl

/-- C10: `getModelName` returns "Cloze" iff the note's `isCloze` flag is
true and "Basic" otherwise; `config.cloze` is never consulted. -/
theorem claim_C10_getModelName (note : NoteBase) :
    (note.getModelName = "Cloze" ↔ note.isCloze = true) ∧
    (note.isCloze = false → note.getModelName = "Basic") ∧
    (∀ c : Option Bool,
      NoteBase.getModelName { note with config := { note.config with cloze := c } } =
        note.getModelName) := by
  refine ⟨?_, ?_, ?_⟩
  · cases h : note.isCloze <;> simp [NoteBase.getModelName, h]
  · intro h
    simp [NoteBase.getModelName, h]
  · intro c
    simp [NoteBase.getModelName]

/-- Witness for C10 at a concrete note. -/
theorem claim_C10_witness :
    ({ id := none
       fields := {}
       source := { file := { path := "a.md", parent := "" } }
       sourceText := ""
       config := {}
       isCloze := true : NoteBase }.getModelName = "Cloze") :=
  (claim_C10_getModelName _).1.mpr rfl

/-- C7: `fieldsToAnkiFields` always returns exactly the two keys of the
target model (Text/Back Extra for cloze, Front/Back otherwise), and an
unset slot maps to the empty string rather than a missing key. -/
theorem claim_C7_fieldsToAnkiFields (note : NoteBase) (fields : NoteFields) :
    ((note.fieldsToAnkiFields fields).map Prod.fst =
      if note.isCloze then ["Text", "Back Extra"] else ["Front", "Back"]) ∧
    (fields.frontlike = none →
      (note.fieldsToAnkiFields fields).lookup
        (if note.isCloze then "Text" else "Front") = some "") ∧
    (fields.backlike = none →
      (note.fieldsToAnkiFields fields).lookup
        (if note.isCloze then "Back Extra" else "Back") = some "") := by
  refine ⟨?_, ?_, ?_⟩ <;>
    cases h : note.isCloze <;>
    simp [NoteBase.fieldsToAnkiFields, h, List.lookup] <;>
    intro hf <;>
    simp [hf]

/-- Witness for C7 at a concrete note and field assignment. -/
theorem claim_C7_witness :
    (NoteBase.fieldsToAnkiFields
        { id := none
          fields := {}
          source := { file := { path := "a.md", parent := "" } }
          sourceText := ""
          config := {}
          isCloze := false }
        { frontlike := none, backlike := some "ans" }).lookup "Front" = some "" := by
  have h := (claim_C7_fieldsToAnkiFields
      { id := none
        fields := {}
        source := { file := { path := "a.md", parent := "" } }
        sourceText := ""
        config := {}
        isCloze := false }
      { frontlike := none, backlike := some "ans" }).2.1 rfl
  simpa using h

/-- C9: when the remote record lacks an expected field name for its declared
model, `normaliseNoteInfoFields` fails (the modelled throw, `none`) rather
than returning a `NoteFields` value. -/
theorem claim_C9_normalise_missing_field (noteInfo : NotesInfoResponseEntity)
    (h : noteInfo.fields.lookup
          (if noteInfo.modelName == "Cloze" then "Text" else "Front") = none ∨
         noteInfo.fields.lookup
          (if noteInfo.modelName == "Cloze" then "Back Extra" else "Back") = none) :
    normaliseNoteInfoFields noteInfo = none := by
  unfold normaliseNoteInfoFields
  rcases h with h | h
  · simp only [h]
  · cases hf : noteInfo.fields.lookup
      (if noteInfo.modelName == "Cloze" then "Text" else "Front") <;>
      simp only [hf, h]

/-- Witness for C9: a Basic-model record with no fields at all. -/
theorem claim_C9_witness :
    normaliseNoteInfoFields { modelName := "Basic", fields := [] } = none :=
  claim_C9_normalise_missing_field _ (Or.inl rfl)

/-- C2 counterexample: the round trip as claimed fails when the receiving
note's `isCloze` flag disagrees with the record's model. A Basic record with
the expected Front/Back fields, normalised and mapped back through a note
with `isCloze = true`, comes back keyed Text/Back Extra — the Front key of
the record is gone. -/
theorem claim_C2_counterexample :
    (normaliseNoteInfoFields
        { modelName := "Basic", fields := [("Front", "f"), ("Back", "b")] }).map
      (fun nf =>
        NoteBase.fieldsToAnkiFields
          { id := none
            fields := {}
            source := { file := { path := "", parent := "" } }
            sourceText := ""
            config := {}
            isCloze := true }
          nf) = some [("Text", "f"), ("Back Extra", "b")] ∧
    (List.lookup "Front" [("Text", "f"), ("Back Extra", "b")] = none ∧
      List.lookup "Front" [("Front", "f"), ("Back", "b")] = some "f") := by
  decide

/-- C2 (amended): for a remote record R with model Basic or Cloze carrying
exactly the expected field names for that model, and a note whose `isCloze`
flag agrees with R's model, `fieldsToAnkiFields` after
`normaliseNoteInfoFields` reproduces R's field-name-to-value mapping. -/
theorem claim_C2_roundtrip (note : NoteBase) (R : NotesInfoResponseEntity) (f b : String)
    (_hmodel : R.modelName = "Basic" ∨ R.modelName = "Cloze")
    (hcloze : note.isCloze = (R.modelName == "Cloze"))
    (hfields : R.fields =
      [((if note.isCloze then "Text" else "Front"), f),
       ((if note.isCloze then "Back Extra" else "Back"), b)]) :
    (normaliseNoteInfoFields R).map note.fieldsToAnkiFields = some R.fields := by
  simp only [normaliseNoteInfoFields]
  rw [← hcloze, hfields]
  cases hc : note.isCloze <;>
    simp [hc, List.lookup, NoteBase.fieldsToAnkiFields]

/-- Witness for C2 (amended) at a concrete Basic record. -/
theorem claim_C2_witness :
    (normaliseNoteInfoFields
        { modelName := "Basic", fields := [("Front", "1"), ("Back", "2")] }).map
      (NoteBase.fieldsToAnkiFields
        { id := none
          fields := {}
          source := { file := { path := "", parent := "" } }
          sourceText := ""
          config := {}
          isCloze := false }) = some [("Front", "1"), ("Back", "2")] :=
  claim_C2_roundtrip _ _ "1" "2" (Or.inl rfl) rfl rfl

/-- C3: with `inheritDeck` explicitly true, `getDeckName` is the fallback
deck, `"::"`, and the file's full path with `/` replaced by `::`; the
per-note deck and the default-deck mappings are ignored. -/
theorem claim_C3_inheritDeck_true (settings : PluginSettings) (note : NoteBase)
    (h : settings.inheritDeck = some true) :
    note.getDeckName settings =
      settings.fallbackDeck ++ "::" ++ slashesToColons note.source.file.path ∧
    (∀ (d : Option String) (maps : List (String × String)),
      NoteBase.getDeckName { note with config := { note.config with deck := d } }
          { settings with defaultDeckMaps := maps } =
        settings.fallbackDeck ++ "::" ++ slashesToColons note.source.file.path) := by
  constructor
  · simp [NoteBase.getDeckName, h]
  · intro d maps
    simp [NoteBase.getDeckName, h]

/-- Witness for C3: the spec's example, file path "Biology/Cells.md" with
fallback deck "MyDeck". -/
theorem claim_C3_witness :
    NoteBase.getDeckName
        { id := none
          fields := {}
          source := { file := { path := "Biology/Cells.md", parent := "Biology" } }
          sourceText := ""
          config := { deck := some "Ignored" } }
        { inheritDeck := some true
          defaultDeckMaps := [("Biology", "AlsoIgnored")]
          fallbackDeck := "MyDeck" } = "MyDeck::Biology::Cells.md" :=
  ((claim_C3_inheritDeck_true _ _ rfl).1).trans (by decide)

/-- C4: when `inheritDeck` is not true — (a) with `inheritDeck = false` a
set (non-empty) `config.deck` wins; (b) with `inheritDeck = false`, no
per-note deck and a matching folder mapping, that mapping's deck wins;
(c) with `inheritDeck = false` and neither source available, and (d) with
`inheritDeck` unset, `getDeckName` returns `fallbackDeck` verbatim. An
empty-string deck counts as unset, following the spec's own convention and
the JavaScript truthiness guards in the code. -/
theorem claim_C4_inheritDeck_not_true (settings : PluginSettings) (note : NoteBase) :
    (∀ d : String, settings.inheritDeck = some false → note.config.deck = some d →
      d ≠ "" → note.getDeckName settings = d) ∧
    (∀ r : String, settings.inheritDeck = some false →
      (note.config.deck = none ∨ note.config.deck = some "") →
      getDefaultDeckForFolder note.source.file.parent settings.defaultDeckMaps = some r →
      r ≠ "" → note.getDeckName settings = r) ∧
    (settings.inheritDeck = some false →
      (note.config.deck = none ∨ note.config.deck = some "") →
      (getDefaultDeckForFolder note.source.file.parent settings.defaultDeckMaps = none ∨
       getDefaultDeckForFolder note.source.file.parent settings.defaultDeckMaps = some "") →
      note.getDeckName settings = settings.fallbackDeck) ∧
    (settings.inheritDeck = none → note.getDeckName settings = settings.fallbackDeck) := by
  refine ⟨?_, ?_, ?_, ?_⟩
  · intro d hinherit hdeck hne
    simp [NoteBase.getDeckName, hinherit, hdeck, strTruthy, bne_iff_ne, hne]
  · intro r hinherit hdeck hres hne
    rcases hdeck with hdeck | hdeck <;>
      simp [NoteBase.getDeckName, hinherit, hdeck, hres, strTruthy, bne_iff_ne, hne]
  · intro hinherit hdeck hres
    rcases hdeck with hdeck | hdeck <;> rcases hres with hres | hres <;>
      simp [NoteBase.getDeckName, hinherit, hdeck, hres, strTruthy]
  · intro hinherit
    simp [NoteBase.getDeckName, hinherit]

/-- Witness for C4: `inheritDeck = false` with a set per-note deck. -/
theorem claim_C4_witness :
    NoteBase.getDeckName
        { id := none
          fields := {}
          source := { file := { path := "Biology/Cells.md", parent := "Biology" } }
          sourceText := ""
          config := { deck := some "MyNoteDeck" } }
        { inheritDeck := some false
          fallbackDeck := "FB" } = "MyNoteDeck" :=
  (claim_C4_inheritDeck_not_true
      { inheritDeck := some false, fallbackDeck := "FB" }
      { id := none
        fields := {}
        source := { file := { path := "Biology/Cells.md", parent := "Biology" } }
        sourceText := ""
        config := { deck := some "MyNoteDeck" } }).1
    "MyNoteDeck" rfl rfl (by decide)

/-- C8: parsing a `ParseNoteResult` whose config string is null or empty
succeeds and yields the fully-defaulted configuration: `id` null, every
other field unset — in particular `deck` is not the literal empty string
and the boolean flags are not forced to false. `load "" = ok none` models
the external YAML deserializer returning undefined on empty input. -/
theorem claim_C8_empty_config (load : String → Except String (Option RawConfig))
    (result : ParseNoteResult)
    (hload : load "" = Except.ok none)
    (hcfg : result.config = none ∨ result.config = some "") :
    ParseConfig.fromResult load result =
      Except.ok { id := none, deck := none, tags := none,
                  delete := none, enabled := none, cloze := none } := by
  rcases hcfg with hc | hc <;>
    simp [ParseConfig.fromResult, hc, hload, validateParseConfig, defaultRawConfig]

/-- Witness for C8 at a concrete parse result with a null config string. -/
theorem claim_C8_witness :
    ParseConfig.fromResult (fun _ => Except.ok none)
        { type := "basic"
          config := none
          front := some "q"
          back := some "a"
          location :=
            { start := { offset := 0, line := 1, column := 0 }
              stop := { offset := 0, line := 1, column := 0 } } } =
      Except.ok { id := none, deck := none, tags := none,
                  delete := none, enabled := none, cloze := none } :=
  claim_C8_empty_config (fun _ => Except.ok none) _ rfl (Or.inl rfl)

-- Helper lemmas for the tag resolver

/-- `getTags` in closed form: the marker tag consed onto the branch-specific
tail. -/
theorem getTags_eq (settings : PluginSettings) (cacheTags : Option (List String))
    (note : NoteBase) :
    note.getTags settings cacheTags =
      settings.tagInAnki ::
        (match settings.inheritTags, cacheTags with
         | true, some rawTags =>
             dedupFirst ((rawTags.map removeFirstHash).map slashesToColons ++
               note.config.tags.getD [])
         | _, _ => note.config.tags.getD []) := by
  unfold NoteBase.getTags
  cases hI : settings.inheritTags <;> cases cacheTags <;> rfl

/-- Everything surviving `dedupFirst.go` was in the input list. -/
theorem mem_of_mem_dedupFirst_go (x : String) :
    ∀ (seen l : List String), x ∈ dedupFirst.go seen l → x ∈ l := by
  intro seen l
  induction l generalizing seen with
  | nil =>
      intro h
      simp [dedupFirst.go] at h
  | cons y ys ih =>
      intro h
      by_cases hy : y ∈ seen
      · simp only [dedupFirst.go, if_pos hy] at h
        exact List.mem_cons_of_mem _ (ih _ h)
      · simp only [dedupFirst.go, if_neg hy, List.mem_cons] at h
        rcases h with h | h
        · exact h ▸ List.mem_cons_self _ _
        · exact List.mem_cons_of_mem _ (ih _ h)

/-- `dedupFirst` introduces no new elements. -/
theorem not_mem_dedupFirst (x : String) (l : List String) (h : x ∉ l) :
    x ∉ dedupFirst l :=
  fun hx => h (mem_of_mem_dedupFirst_go x [] l hx)

/-- Counting the head of a cons whose tail avoids it. -/
theorem count_cons_self_of_not_mem (x : String) (l : List String) (h : x ∉ l) :
    (x :: l).count x = 1 := by
  simp [List.count_cons_self, List.count_eq_zero.mpr h]

/-- C5 counterexample: a note whose `config.tags` already contains the
marker tag gets it twice from `getTags`, so "exactly once" fails as
claimed. -/
theorem claim_C5_counterexample :
    NoteBase.getTags
        { id := none
          fields := {}
          source := { file := { path := "", parent := "" } }
          sourceText := ""
          config := { tags := some ["obsidian"] } }
        { tagInAnki := "obsidian" } none = ["obsidian", "obsidian"] ∧
    (NoteBase.getTags
        { id := none
          fields := {}
          source := { file := { path := "", parent := "" } }
          sourceText := ""
          config := { tags := some ["obsidian"] } }
        { tagInAnki := "obsidian" } none).count "obsidian" ≠ 1 := by
  decide

/-- C5 (amended): `tagInAnki` is always the first element of `getTags`, and
it occurs exactly once provided it occurs neither in `config.tags` nor
among the transformed cached tags. -/
theorem claim_C5_tagInAnki_first (settings : PluginSettings)
    (cacheTags : Option (List String)) (note : NoteBase) :
    (note.getTags settings cacheTags).head? = some settings.tagInAnki ∧
    (settings.tagInAnki ∉ note.config.tags.getD [] →
      settings.tagInAnki ∉
        (cacheTags.getD []).map (fun t => slashesToColons (removeFirstHash t)) →
      (note.getTags settings cacheTags).count settings.tagInAnki = 1) := by
  constructor
  · rw [getTags_eq]
    rfl
  · intro h1 h2
    rw [getTags_eq]
    cases hI : settings.inheritTags <;> cases cacheTags
    · exact count_cons_self_of_not_mem _ _ h1
    · exact count_cons_self_of_not_mem _ _ h1
    · exact count_cons_self_of_not_mem _ _ h1
    · rename_i raw
      simp only [Option.getD_some] at h2
      refine count_cons_self_of_not_mem _ _ (not_mem_dedupFirst _ _ ?_)
      intro hmem
      rcases List.mem_append.mp hmem with h | h
      · rw [List.map_map] at h
        exact h2 (by simpa [Function.comp] using h)
      · exact h1 h

/-- Witness for C5 (amended): concrete settings and note where the marker
tag is first and occurs once. -/
theorem claim_C5_witness :
    (NoteBase.getTags
        { id := none
          fields := {}
          source := { file := { path := "", parent := "" } }
          sourceText := ""
          config := { tags := some ["exam"] } }
        { inheritTags := true, tagInAnki := "obsidian" }
        (some ["#Bio"])).count "obsidian" = 1 :=
  (claim_C5_tagInAnki_first
      { inheritTags := true, tagInAnki := "obsidian" }
      (some ["#Bio"])
      { id := none
        fields := {}
        source := { file := { path := "", parent := "" } }
        sourceText := ""
        config := { tags := some ["exam"] } }).2 (by decide) (by decide)

/-- The spec's wording of the cache-tag transformation: strip the leading
marker character. A second definition, written from the claim's words, to
compare against the code's `removeFirstHash`. -/
def stripLeadingHash (s : String) : String :=
  match s.data with
  | '#' :: rest => String.mk rest
  | _ => s

/-- On a tag that starts with `'#'` — the shape the external tag cache
produces — removing the first `'#'` is stripping the leading one. -/
theorem removeFirstHash_eq_stripLeadingHash (s : String)
    (h : s.data.head? = some '#') : removeFirstHash s = stripLeadingHash s := by
  obtain ⟨data⟩ := s
  cases data with
  | nil => simp at h
  | cons c cs =>
      simp only [List.head?, Option.some.injEq] at h
      subst h
      simp [removeFirstHash, stripLeadingHash, removeFirstOcc]

/-- C6: with `inheritTags` true and a tag cache entry present, `getTags` is
the marker tag followed by the first-seen-order deduplication of the cached
tags — each with its leading `'#'` stripped and `/` converted to `::` —
with `config.tags` appended. -/
theorem claim_C6_inherited_tags (settings : PluginSettings) (rawTags : List String)
    (note : NoteBase)
    (hinherit : settings.inheritTags = true)
    (hhash : ∀ t ∈ rawTags, t.data.head? = some '#') :
    note.getTags settings (some rawTags) =
      settings.tagInAnki ::
        dedupFirst (rawTags.map (fun t => slashesToColons (stripLeadingHash t)) ++
          note.config.tags.getD []) := by
  rw [getTags_eq, hinherit]
  have hmap : (rawTags.map removeFirstHash).map slashesToColons =
      rawTags.map (fun t => slashesToColons (stripLeadingHash t)) := by
    rw [List.map_map]
    refine List.map_congr_left ?_
    intro t ht
    simp [Function.comp, removeFirstHash_eq_stripLeadingHash t (hhash t ht)]
  exact congrArg
    (fun l => settings.tagInAnki :: dedupFirst (l ++ note.config.tags.getD [])) hmap

/-- Witness for C6: the spec's example — cache tags `#Bio/Cells` and
`#exam`, `config.tags = ["exam"]`, marker `obsidian`. -/
theorem claim_C6_witness :
    NoteBase.getTags
        { id := none
          fields := {}
          source := { file := { path := "Biology/Cells.md", parent := "Biology" } }
          sourceText := ""
          config := { tags := some ["exam"] } }
        { inheritTags := true, tagInAnki := "obsidian" }
        (some ["#Bio/Cells", "#exam"]) = ["obsidian", "Bio::Cells", "exam"] :=
  (claim_C6_inherited_tags
      { inheritTags := true, tagInAnki := "obsidian" }
      ["#Bio/Cells", "#exam"]
      { id := none
        fields := {}
        source := { file := { path := "Biology/Cells.md", parent := "Biology" } }
        sourceText := ""
        config := { tags := some ["exam"] } }
      rfl (by decide)).trans (by decide)
